import Mathlib

/-!
Shallow embedding of the synchronization core of `chat.py` (class `RedisChat`):
message shape, send-side parsing, visibility, the notification-coalescing
policy, the presence sorted-set operations, and one cycle of the background
`stream_updates` loop.  Python strings are modelled as Lean `String`
(ASCII-faithful: `str.lower` as `Char.toLower`, `\w` as alphanumeric or
underscore), Python list membership and substring tests as `List.contains`
and an explicit substring scan.  Store replies that may fail (`redis_request`
returning `None`) are modelled as `Option`.
-/

namespace RedisChat

/-- A decoded chat message, the `msg_data` dict built by `send_message`
(fields `username`, `message`, `timestamp`, `recipients`, `is_silent`);
on the read side the `.get` defaults of `display_message` are part of the
decoding step, so a decoded message always carries all five fields. -/
structure Message where
  username : String
  message : String
  timestamp : String
  recipients : List String
  is_silent : Bool
deriving DecidableEq, Repr

/-- Python `needle in hay` on strings: substring containment. -/
def isSubstring (needle : List Char) : List Char → Bool
  | [] => needle.isEmpty
  | c :: rest => needle.isPrefixOf (c :: rest) || isSubstring needle rest

/-- Python `str.lower()` (ASCII). -/
def lowerStr (s : String) : String := String.mk (s.toList.map Char.toLower)

/-- Python `s1 in s2` for strings. -/
def strContains (needle hay : String) : Bool := isSubstring needle.toList hay.toList

/-- A regex `\w` character: alphanumeric or underscore. -/
def isWordChar (c : Char) : Bool := c.isAlphanum || c == '_'

/-- Scanner state for `re.findall(r'@(\w+)', s)`: outside any candidate,
just past an `@`, or inside the captured word (characters kept reversed). -/
inductive MentionState where
  | outside : MentionState
  | afterAt : MentionState
  | inWord : List Char → MentionState

/-- Left-to-right non-overlapping scan implementing
`re.findall(r'@(\w+)', s)`: each match is the maximal run of word
characters following an `@`. -/
def mentionsAux : MentionState → List Char → List String
  | .outside, [] => []
  | .afterAt, [] => []
  | .inWord w, [] => [String.mk w.reverse]
  | .outside, c :: rest =>
      if c == '@' then mentionsAux .afterAt rest else mentionsAux .outside rest
  | .afterAt, c :: rest =>
      if isWordChar c then mentionsAux (.inWord [c]) rest
      else if c == '@' then mentionsAux .afterAt rest
      else mentionsAux .outside rest
  | .inWord w, c :: rest =>
      if isWordChar c then mentionsAux (.inWord (c :: w)) rest
      else if c == '@' then String.mk w.reverse :: mentionsAux .afterAt rest
      else String.mk w.reverse :: mentionsAux .outside rest

/-- `re.findall(r'@(\w+)', message)` from `send_message`. -/
def findMentions (s : String) : List String := mentionsAux .outside s.toList

/-- Python `message.replace("/silent", "")`: removes every (left-to-right,
non-overlapping) occurrence of the literal `/silent`. -/
def removeSilent : List Char → List Char
  | '/' :: 's' :: 'i' :: 'l' :: 'e' :: 'n' :: 't' :: rest => removeSilent rest
  | c :: rest => c :: removeSilent rest
  | [] => []

/-- Python `str.strip()`: drop leading and trailing whitespace. -/
def stripStr (s : List Char) : List Char :=
  ((s.dropWhile Char.isWhitespace).reverse.dropWhile Char.isWhitespace).reverse

/-- `RedisChat.send_message`, send-side parsing only: the stored message
(`msg_data`) built from the typed text.  If the text contains `/silent` the
flag is set, the body is the text with `/silent` removed and stripped, and
the recipients are all `@word` mentions of the original text; otherwise the
body is the text unchanged with no recipients. -/
def send_message (username timestamp text : String) : Message :=
  let is_silent := strContains "/silent" text
  let display_text :=
    if is_silent then String.mk (stripStr (removeSilent text.toList)) else text
  let recipients := if is_silent then findMentions text else []
  { username := username
    message := display_text
    timestamp := timestamp
    recipients := if is_silent then recipients else []
    is_silent := is_silent }

/-- Modelled from the spec: `isVisible(message, selfIdentity)` is true unless
`message.silent == true` and `selfIdentity != message.sender` and
`selfIdentity not in message.recipients`. -/
def isVisible (m : Message) (self : String) : Bool :=
  !(m.is_silent && !(self == m.username) && !(m.recipients.contains self))

/-- The visibility check of `RedisChat.display_message`: the message is
printed unless it is silent and the local user is neither the sender nor
among the recipients (in which case the function returns early). -/
def display_message_visible (self : String) (m : Message) : Bool :=
  !(m.is_silent && !(self == m.username) && !(m.recipients.contains self))

/-- The per-message relevance filter of the notification block in
`RedisChat.stream_updates`: the sender's own messages are skipped, then a
silent message is skipped when the local user is not among its recipients. -/
def notif_relevant (self : String) (m : Message) : Bool :=
  if m.username == self then false
  else if m.is_silent && !(m.recipients.contains self) then false
  else true

/-- **C1.** Visibility is exactly the spec rule: the rendering check of
`display_message` equals `isVisible`, the notification relevance filter
equals `isVisible` conjoined with not-own-message, every non-silent message
is visible to every identity, and a silent message with an empty recipients
list is visible only to its sender. -/
theorem C1_visibility (m : Message) (self : String) :
    display_message_visible self m = isVisible m self ∧
    notif_relevant self m = (isVisible m self && !(m.username == self)) ∧
    isVisible m self = (!m.is_silent || (self == m.username) || m.recipients.contains self) ∧
    isVisible { m with recipients := [], is_silent := true } self = (self == m.username) := by
  have hsym : (m.username == self) = (self == m.username) := by
    cases h : self == m.username with
    | true =>
      have h1 : self = m.username := beq_iff_eq.mp h
      rw [h1]
      exact beq_self_eq_true _
    | false =>
      cases h2 : m.username == self with
      | false => rfl
      | true =>
        have h1 : self = m.username := (beq_iff_eq.mp h2).symm
        rw [h1] at h
        simp at h
  refine ⟨rfl, ?_, ?_, ?_⟩
  · simp only [notif_relevant, isVisible, hsym]
    cases self == m.username <;> cases m.is_silent <;>
      cases m.recipients.contains self <;> rfl
  · simp only [isVisible]
    cases m.is_silent <;> cases self == m.username <;>
      cases m.recipients.contains self <;> rfl
  · simp only [isVisible]
    cases self == m.username <;> rfl

/-- An OS notification as issued by `notification.notify` in
`stream_updates`: its `title` and its `message` body (the body is
`f"{last_sender}: {last_text}"`). -/
structure Notif where
  title : String
  body : String
deriving DecidableEq, Repr

/-- `"@everyone" in t.lower()` from the severity scan. -/
def hasEveryoneTok (t : String) : Bool := strContains "@everyone" (lowerStr t)

/-- `f"@{self.username.lower()}" in t.lower()` from the severity scan. -/
def hasSelfTok (self t : String) : Bool :=
  strContains ("@" ++ lowerStr self) (lowerStr t)

/-- The `relevant_msgs` list built by the notification block of
`stream_updates`: `(sender, text)` pairs of the batch (newest-first),
skipping own messages and silent messages not addressed to the local user. -/
def relevant_pairs (self : String) (messages : List Message) : List (String × String) :=
  (messages.filter (fun m => notif_relevant self m)).map (fun m => (m.username, m.message))

/-- The severity scan of `stream_updates`: walk `relevant_msgs` in order and
stop at the first message containing an `@everyone` token (checked first)
or an `@self` token; returns the title together with the `is_mention` flag
(`("Redis Chat", false)` when the loop falls through). -/
def scan_title (self : String) : List (String × String) → String × Bool
  | [] => ("Redis Chat", false)
  | (_, t) :: rest =>
    if hasEveryoneTok t then ("📢 @everyone Mentioned!", true)
    else if hasSelfTok self t then ("🔔 You were mentioned!", true)
    else scan_title self rest

/-- Modelled from the amended spec wording: the title is decided by the
first (newest) relevant message that contains an `@everyone` or `@self`
token, with `@everyone` taking precedence inside that single message. -/
def firstMentionTitle (self : String) (rel : List (String × String)) : String × Bool :=
  match rel.find? (fun p => hasEveryoneTok p.2 || hasSelfTok self p.2) with
  | none => ("Redis Chat", false)
  | some p =>
    if hasEveryoneTok p.2 then ("📢 @everyone Mentioned!", true)
    else ("🔔 You were mentioned!", true)

/-- The whole per-cycle notification decision of `stream_updates`:
nothing when `relevant_msgs` is empty, otherwise one notification whose
body is the newest relevant message's sender and text and whose title
comes from the severity scan (falling back to
`f"New message from {last_sender}"`). -/
def notif_decision (self : String) (messages : List Message) : Option Notif :=
  match relevant_pairs self messages with
  | [] => none
  | (last_sender, last_text) :: rest =>
    let st := scan_title self ((last_sender, last_text) :: rest)
    let title := if st.2 then st.1 else "New message from " ++ last_sender
    some { title := title, body := last_sender ++ ": " ++ last_text }

theorem scan_title_eq_firstMention (self : String) (rel : List (String × String)) :
    scan_title self rel = firstMentionTitle self rel := by
  induction rel with
  | nil => rfl
  | cons p rest ih =>
    obtain ⟨s, t⟩ := p
    by_cases h1 : hasEveryoneTok t = true
    · simp [scan_title, firstMentionTitle, List.find?_cons, h1]
    · by_cases h2 : hasSelfTok self t = true
      · simp [scan_title, firstMentionTitle, List.find?_cons, h1, h2]
      · simp only [Bool.not_eq_true] at h1 h2
        simp [scan_title, firstMentionTitle, List.find?_cons, h1, h2, ih]

/-- Newest relevant message in the counterexample batch: mentions the local
user `bob` but not `@everyone`. -/
def c2_msg_newer : Message :=
  { username := "alice", message := "hi @bob", timestamp := "t1",
    recipients := [], is_silent := false }

/-- Older relevant message in the counterexample batch: mentions
`@everyone`. -/
def c2_msg_older : Message :=
  { username := "carol", message := "@everyone party", timestamp := "t0",
    recipients := [], is_silent := false }

/-- **C2, counterexample.** A batch whose older relevant message contains
`@everyone` while the newer one mentions only `@bob`: the code titles the
notification for the `@self` mention, not for `@everyone`, because the
severity scan stops at the first (newest) message containing either token —
refuting the claim that an `@everyone` token anywhere in the batch takes
highest severity. -/
theorem C2_counterexample :
    hasEveryoneTok c2_msg_older.message = true ∧
    notif_relevant "bob" c2_msg_older = true ∧
    notif_decision "bob" [c2_msg_newer, c2_msg_older] =
      some { title := "🔔 You were mentioned!", body := "alice: hi @bob" } ∧
    "🔔 You were mentioned!" ≠ "📢 @everyone Mentioned!" := by
  refine ⟨rfl, rfl, rfl, by decide⟩

/-- **C2, amended.** For every batch with a non-empty relevant subset,
exactly one notification is emitted, bodied with the newest relevant
message's sender and text; its severity comes from the first (newest)
relevant message containing an `@everyone` or `@selfIdentity` token, with
`@everyone` taking precedence only within that single message (a newer
`@self` mention outranks an older `@everyone`); with no relevant message,
nothing is emitted. -/
theorem C2_notification_coalescing (self : String) (messages : List Message) :
    scan_title self (relevant_pairs self messages) =
      firstMentionTitle self (relevant_pairs self messages) ∧
    (relevant_pairs self messages = [] → notif_decision self messages = none) ∧
    (∀ s t rest, relevant_pairs self messages = (s, t) :: rest →
      notif_decision self messages =
        some { title := if (firstMentionTitle self ((s, t) :: rest)).2
                        then (firstMentionTitle self ((s, t) :: rest)).1
                        else "New message from " ++ s,
               body := s ++ ": " ++ t }) := by
  refine ⟨scan_title_eq_firstMention self _, ?_, ?_⟩
  · intro h
    simp only [notif_decision, h]
  · intro s t rest h
    simp only [notif_decision, h, scan_title_eq_firstMention]

/-- Witness for C2: the empty batch emits nothing, and a single plain
relevant message emits the plain-severity notification with its sender and
text. -/
theorem C2_witness :
    notif_decision "bob" [] = none ∧
    notif_decision "bob"
        [{ username := "dan", message := "yo", timestamp := "t",
           recipients := [], is_silent := false }] =
      some { title := "New message from dan", body := "dan: yo" } := by
  constructor
  · exact (C2_notification_coalescing "bob" []).2.1 rfl
  · have h := (C2_notification_coalescing "bob"
      [{ username := "dan", message := "yo", timestamp := "t",
         recipients := [], is_silent := false }]).2.2 "dan" "yo" [] rfl
    rw [h]
    rfl

/-- `heartbeat_interval = 20` in `stream_updates`. -/
def heartbeat_interval : Nat := 20

/-- `cleanup_interval = 60` in `stream_updates`. -/
def cleanup_interval : Nat := 60

/-- The presence staleness window: `cutoff = now - 15` in `stream_updates`. -/
def staleness_window : Nat := 15

/-- `time.sleep(2)` at the end of every loop body in `stream_updates`. -/
def message_poll_sleep : Nat := 2

/-- `time.sleep(2)` in the `except` branch of `stream_updates`. -/
def stream_error_sleep : Nat := 2

/-- Redis `ZADD key score member` on the presence sorted set: idempotent
upsert of the member's score. -/
def zadd (z : List (String × Nat)) (score : Nat) (member : String) :
    List (String × Nat) :=
  if z.any (fun p => p.1 == member) then
    z.map (fun p => if p.1 == member then (member, score) else p)
  else z ++ [(member, score)]

/-- Redis `ZREMRANGEBYSCORE key -inf cutoff`: removes every member whose
score is at most `cutoff`. -/
def zremrangebyscore_upto (z : List (String × Nat)) (cutoff : Int) :
    List (String × Nat) :=
  z.filter (fun p => decide (cutoff < (p.2 : Int)))

/-- Redis `ZCARD`: cardinality of the presence sorted set. -/
def zcard (z : List (String × Nat)) : Nat := z.length

/-- The mutable fields of the `RedisChat` instance touched by the sync
loop: `last_count` (the sync cursor), the two local throttling timestamps
of `stream_updates`, and `active_user_count` (set to `1` in `__init__`). -/
structure SyncState where
  last_count : Nat
  last_heartbeat : Nat
  last_cleanup : Nat
  active_user_count : Nat
deriving DecidableEq, Repr

/-- The environment one cycle of `stream_updates` observes: the clock, the
store's reply to `LLEN` (`none` = `redis_request` failure), the store's
reply to the `LRANGE` issued by `get_message_history` (`none` = failure),
and the two notification gates (`PLYER_AVAILABLE`,
`is_window_focused()`). -/
structure SyncEnv where
  now : Nat
  llen : Option Nat
  lrange : Option (List String)
  plyer_available : Bool
  window_focused : Bool
deriving DecidableEq, Repr

/-- The observable effects of one cycle of `stream_updates`: the heartbeat
`ZADD` issued (member and score), the cleanup cutoff of the
`ZREMRANGEBYSCORE` issued, whether a delta fetch was issued, the decoded
batch handed to `display_message` (newest-first), the subset actually
rendered (those passing the visibility check), the notification issued,
and the sleep ending the cycle. -/
structure CycleOut where
  hb_write : Option (String × Nat)
  cleanup_cutoff : Option Int
  fetch_issued : Bool
  dispatched : List Message
  rendered : List Message
  notif : Option Notif
  sleep : Nat
deriving DecidableEq, Repr

/-- `RedisChat.get_message_history`: decode each raw ledger entry of the
`LRANGE` reply, silently skipping entries whose decoding fails
(`try: json.loads ... except: pass`); a failed request yields `[]`.
`decode` stands for `json.loads` plus the `.get`-with-default field
extraction. -/
def get_message_history (decode : String → Option Message)
    (reply : Option (List String)) : List Message :=
  match reply with
  | some entries => entries.filterMap decode
  | none => []

/-- The notification gate of `stream_updates`: only when the batch is
non-empty, `plyer` is importable, and the terminal window is not focused
does the coalescing decision run. -/
def cycle_notif (username : String) (env : SyncEnv) (messages : List Message) :
    Option Notif :=
  if !messages.isEmpty && env.plyer_available && !env.window_focused then
    notif_decision username messages
  else none

/-- One iteration of the `while self.running` body of
`RedisChat.stream_updates`: heartbeat `ZADD` when due, presence cleanup
when due, then the `LLEN` check; on observed growth the delta is fetched
via `get_message_history`, optionally one notification is emitted, every
fetched message is handed to `display_message`, and `last_count` is set to
the observed length (this assignment sits outside the `if messages:` guard,
so it also runs when the fetch failed); a failed `LLEN` skips the message
step entirely.  Every path ends in the fixed 2-second sleep. -/
def stream_cycle (decode : String → Option Message) (username : String)
    (st : SyncState) (env : SyncEnv) : SyncState × CycleOut :=
  let do_hb := !(username == "") && decide (heartbeat_interval ≤ env.now - st.last_heartbeat)
  let hb_write := if do_hb then some (username, env.now) else none
  let last_heartbeat := if do_hb then env.now else st.last_heartbeat
  let do_cl := decide (cleanup_interval ≤ env.now - st.last_cleanup)
  let cleanup_cutoff := if do_cl then some ((env.now : Int) - (staleness_window : Int)) else none
  let last_cleanup := if do_cl then env.now else st.last_cleanup
  match env.llen with
  | none =>
      ({ st with last_heartbeat := last_heartbeat, last_cleanup := last_cleanup },
       { hb_write := hb_write, cleanup_cutoff := cleanup_cutoff, fetch_issued := false,
         dispatched := [], rendered := [], notif := none, sleep := message_poll_sleep })
  | some current_count =>
      if st.last_count < current_count then
        let messages := get_message_history decode env.lrange
        ({ last_count := current_count, last_heartbeat := last_heartbeat,
           last_cleanup := last_cleanup, active_user_count := st.active_user_count },
         { hb_write := hb_write, cleanup_cutoff := cleanup_cutoff, fetch_issued := true,
           dispatched := messages,
           rendered := messages.filter (fun m => display_message_visible username m),
           notif := cycle_notif username env messages, sleep := message_poll_sleep })
      else
        ({ st with last_heartbeat := last_heartbeat, last_cleanup := last_cleanup },
         { hb_write := hb_write, cleanup_cutoff := cleanup_cutoff, fetch_issued := false,
           dispatched := [], rendered := [], notif := none, sleep := message_poll_sleep })

/-- The sync loop as a fold of `stream_cycle` over a finite trace of cycle
environments, collecting each cycle's effects. -/
def stream_loop (decode : String → Option Message) (username : String) :
    SyncState → List SyncEnv → SyncState × List CycleOut
  | st, [] => (st, [])
  | st, env :: rest =>
      let step := stream_cycle decode username st env
      let tail := stream_loop decode username step.1 rest
      (tail.1, step.2 :: tail.2)

/-- The state right after `RedisChat.__init__` plus the `last_count`
initialization in `run` (`last_count` = the ledger length observed at
startup, `active_user_count = 1`, both throttling timestamps 0). -/
def init_state (initial_len : Nat) : SyncState :=
  { last_count := initial_len, last_heartbeat := 0, last_cleanup := 0,
    active_user_count := 1 }

/-- The value rendered as `Live:N` in the prompt of `RedisChat.run`:
`self.active_user_count`. -/
def prompt_live_count (st : SyncState) : Nat := st.active_user_count

theorem stream_cycle_llen_some (decode : String → Option Message) (username : String)
    (st : SyncState) (env : SyncEnv) (c : Nat) (h : env.llen = some c) :
    ((stream_cycle decode username st env).1).last_count =
      if st.last_count < c then c else st.last_count := by
  simp only [stream_cycle, h]
  by_cases hlt : st.last_count < c
  · rw [if_pos hlt, if_pos hlt]
  · rw [if_neg hlt, if_neg hlt]

theorem stream_cycle_last_count_mono (decode : String → Option Message) (username : String)
    (st : SyncState) (env : SyncEnv) :
    st.last_count ≤ ((stream_cycle decode username st env).1).last_count := by
  obtain ⟨now, llen, lrange, pa, wf⟩ := env
  cases llen with
  | none => exact Nat.le_refl _
  | some c =>
    rw [stream_cycle_llen_some decode username st _ c rfl]
    split
    · omega
    · exact Nat.le_refl _

theorem stream_loop_last_count_mono (decode : String → Option Message) (username : String)
    (st : SyncState) (envs : List SyncEnv) :
    st.last_count ≤ ((stream_loop decode username st envs).1).last_count := by
  induction envs generalizing st with
  | nil => exact Nat.le_refl _
  | cons env rest ih =>
    exact Nat.le_trans (stream_cycle_last_count_mono decode username st env)
      (ih (stream_cycle decode username st env).1)

/-- A trace of successful cycles: in each step the ledger has grown by `d`
entries since the previously observed length and both store requests
succeed, the `LRANGE` reply being the paired raw entries. -/
def growth_envs (base : Nat) : List (Nat × List String) → List SyncEnv
  | [] => []
  | (d, raws) :: rest =>
      { now := 0, llen := some (base + d), lrange := some raws,
        plyer_available := false, window_focused := true } :: growth_envs (base + d) rest

theorem stream_loop_growth (decode : String → Option Message) (username : String)
    (st : SyncState) (base : Nat) (steps : List (Nat × List String))
    (h : st.last_count = base) :
    ((stream_loop decode username st (growth_envs base steps)).1).last_count =
      base + (steps.map Prod.fst).sum := by
  induction steps generalizing st base with
  | nil => simpa [growth_envs, stream_loop] using h
  | cons p rest ih =>
    obtain ⟨d, raws⟩ := p
    simp only [growth_envs, stream_loop, List.map_cons, List.sum_cons]
    have hc : ((stream_cycle decode username st
        { now := 0, llen := some (base + d), lrange := some raws,
          plyer_available := false, window_focused := true }).1).last_count = base + d := by
      rw [stream_cycle_llen_some decode username st _ (base + d) rfl, h]
      split <;> omega
    rw [ih _ (base + d) hc]
    omega

theorem stream_cycle_success_dispatch (decode : String → Option Message) (username : String)
    (st : SyncState) (env : SyncEnv) (c : Nat) (raws : List String)
    (h1 : env.llen = some c) (h2 : st.last_count < c) (h3 : env.lrange = some raws) :
    (stream_cycle decode username st env).2.dispatched = raws.filterMap decode ∧
    ((stream_cycle decode username st env).1).last_count = c := by
  simp only [stream_cycle, h1]
  rw [if_pos h2]
  exact ⟨by simp [get_message_history, h3], rfl⟩

/-- Heartbeat cycle of the evicted peer: clock 100, store replies
irrelevant to the point. -/
def c3_env_heartbeat : SyncEnv :=
  { now := 100, llen := none, lrange := none,
    plyer_available := false, window_focused := true }

/-- Cleanup cycle of another participant at clock 116: one second before
the evicted peer's next heartbeat is even due. -/
def c3_env_cleanup : SyncEnv :=
  { now := 116, llen := none, lrange := none,
    plyer_available := false, window_focused := true }

/-- **C3.** The heartbeat interval (20) is NOT shorter than the staleness
window (15): a peer that heartbeats at clock 100 is due again only at 120,
yet any participant's cleanup pass at clock 116 trims with cutoff 101 and
removes the live peer's presence entry — the code contradicts the spec's
stated requirement that the heartbeat interval be shorter than the cutoff. -/
theorem C3_heartbeat_exceeds_cutoff :
    heartbeat_interval = 20 ∧ staleness_window = 15 ∧
    ¬ heartbeat_interval < staleness_window ∧
    (stream_cycle (fun _ => none) "alice" (init_state 0) c3_env_heartbeat).2.hb_write
      = some ("alice", 100) ∧
    (stream_cycle (fun _ => none) "bob" (init_state 0) c3_env_cleanup).2.cleanup_cutoff
      = some 101 ∧
    zremrangebyscore_upto (zadd [] 100 "alice") 101 = [] ∧
    116 - 100 < heartbeat_interval := by
  decide

/-- **C4.** `active_user_count` is the constant 1: no cycle (and hence no
sequence of cycles) of the sync loop ever changes it, `__init__` sets it to
1, and the prompt therefore always renders `Live:1` — even when the
presence sorted set has cardinality 2 because two peers heartbeated within
the staleness window. -/
theorem C4_active_count_constant :
    (∀ (decode : String → Option Message) (username : String) (st : SyncState)
        (env : SyncEnv),
        ((stream_cycle decode username st env).1).active_user_count
          = st.active_user_count) ∧
    (∀ (decode : String → Option Message) (username : String) (st : SyncState)
        (envs : List SyncEnv),
        ((stream_loop decode username st envs).1).active_user_count
          = st.active_user_count) ∧
    (∀ (decode : String → Option Message) (username : String) (initial_len : Nat)
        (envs : List SyncEnv),
        prompt_live_count ((stream_loop decode username (init_state initial_len) envs).1)
          = 1) ∧
    zcard (zadd (zadd [] 100 "alice") 105 "bob") = 2 := by
  have hcycle : ∀ (decode : String → Option Message) (username : String)
      (st : SyncState) (env : SyncEnv),
      ((stream_cycle decode username st env).1).active_user_count
        = st.active_user_count := by
    intro decode username st env
    obtain ⟨now, llen, lrange, pa, wf⟩ := env
    cases llen with
    | none => rfl
    | some c =>
      simp only [stream_cycle]
      by_cases hlt : st.last_count < c
      · rw [if_pos hlt]
      · rw [if_neg hlt]
  have hloop : ∀ (decode : String → Option Message) (username : String)
      (st : SyncState) (envs : List SyncEnv),
      ((stream_loop decode username st envs).1).active_user_count
        = st.active_user_count := by
    intro decode username st envs
    induction envs generalizing st with
    | nil => rfl
    | cons env rest ih =>
      calc ((stream_loop decode username st (env :: rest)).1).active_user_count
          = ((stream_cycle decode username st env).1).active_user_count :=
            ih (stream_cycle decode username st env).1
        _ = st.active_user_count := hcycle decode username st env
  refine ⟨hcycle, hloop, ?_, by decide⟩
  intro decode username initial_len envs
  rw [prompt_live_count, hloop]
  rfl

/-- The cycle refuting C5's ordering clause: the ledger length check
succeeds and shows growth, but the delta fetch fails. -/
def c5_env_fetch_fail : SyncEnv :=
  { now := 0, llen := some 1, lrange := none,
    plyer_available := false, window_focused := true }

/-- **C5, counterexample.** When the length check observes growth but the
`LRANGE` delta fetch fails, `last_count` is still advanced to the observed
length (the assignment sits outside the `if messages:` guard) while nothing
was handed to display — refuting "advanced … only after the fetched delta
has been handed to display". -/
theorem C5_counterexample :
    (init_state 0).last_count = 0 ∧
    ((stream_cycle (fun _ => none) "alice" (init_state 0) c5_env_fetch_fail).1).last_count
      = 1 ∧
    (stream_cycle (fun _ => none) "alice" (init_state 0) c5_env_fetch_fail).2.dispatched
      = [] := by
  decide

/-- **C5, amended.** The sync cursor is monotonically non-decreasing across
every cycle and every sequence of cycles; after N consecutive successful
cycles in which the ledger grew by d1..dN the cursor equals its initial
value plus the sum of the d_i; and whenever the length check succeeds with
growth AND the delta fetch also succeeds, the decoded delta is handed to
display in that same cycle, the cursor then being advanced to the newly
observed length (when the fetch fails, the cursor still advances and the
delta is dropped, per the counterexample). -/
theorem C5_cursor :
    (∀ (decode : String → Option Message) (username : String) (st : SyncState)
        (env : SyncEnv),
        st.last_count ≤ ((stream_cycle decode username st env).1).last_count) ∧
    (∀ (decode : String → Option Message) (username : String) (st : SyncState)
        (envs : List SyncEnv),
        st.last_count ≤ ((stream_loop decode username st envs).1).last_count) ∧
    (∀ (decode : String → Option Message) (username : String) (st : SyncState)
        (base : Nat) (steps : List (Nat × List String)), st.last_count = base →
        ((stream_loop decode username st (growth_envs base steps)).1).last_count
          = base + (steps.map Prod.fst).sum) ∧
    (∀ (decode : String → Option Message) (username : String) (st : SyncState)
        (env : SyncEnv) (c : Nat) (raws : List String),
        env.llen = some c → st.last_count < c → env.lrange = some raws →
        (stream_cycle decode username st env).2.dispatched = raws.filterMap decode ∧
        ((stream_cycle decode username st env).1).last_count = c) :=
  ⟨stream_cycle_last_count_mono, stream_loop_last_count_mono,
   stream_loop_growth, stream_cycle_success_dispatch⟩

/-- Witness for C5: starting from cursor 5, three successful cycles with
growths 2, 0 and 3 leave the cursor at 10; and a successful growth cycle
hands the decoded delta to display. -/
theorem C5_witness :
    ((stream_loop (fun _ => none) "alice" (init_state 5)
        (growth_envs 5 [(2, ["a", "b"]), (0, []), (3, ["c"])])).1).last_count = 10 ∧
    (stream_cycle (fun s => if s == "e" then some c2_msg_newer else none) "bob"
        (init_state 0)
        { now := 0, llen := some 1, lrange := some ["e"],
          plyer_available := false, window_focused := true }).2.dispatched
      = [c2_msg_newer] := by
  constructor
  · have h := C5_cursor.2.2.1 (fun _ => none) "alice" (init_state 5) 5
      [(2, ["a", "b"]), (0, []), (3, ["c"])] rfl
    rw [h]
    decide
  · have h := (C5_cursor.2.2.2 (fun s => if s == "e" then some c2_msg_newer else none)
      "bob" (init_state 0)
      { now := 0, llen := some 1, lrange := some ["e"],
        plyer_available := false, window_focused := true } 1 ["e"] rfl (by decide) rfl).1
    rw [h]
    rfl

/-- **C6.** When the `LLEN` request fails (`redis_request` returns `None`),
the cycle leaves the sync cursor unchanged, issues no delta fetch, hands
nothing to display, emits no notification, ends in the fixed sleep, and the
loop simply proceeds to the remaining cycles. -/
theorem C6_llen_failure (decode : String → Option Message) (username : String)
    (st : SyncState) (env : SyncEnv) (rest : List SyncEnv) (h : env.llen = none) :
    ((stream_cycle decode username st env).1).last_count = st.last_count ∧
    (stream_cycle decode username st env).2.fetch_issued = false ∧
    (stream_cycle decode username st env).2.dispatched = [] ∧
    (stream_cycle decode username st env).2.notif = none ∧
    (stream_cycle decode username st env).2.sleep = message_poll_sleep ∧
    stream_loop decode username st (env :: rest) =
      ((stream_loop decode username (stream_cycle decode username st env).1 rest).1,
        (stream_cycle decode username st env).2 ::
          (stream_loop decode username (stream_cycle decode username st env).1 rest).2) := by
  refine ⟨?_, ?_, ?_, ?_, ?_, rfl⟩ <;>
    simp [stream_cycle, h]

/-- Witness for C6: a concrete failed-length cycle from cursor 3 leaves the
cursor at 3. -/
theorem C6_witness :
    ((stream_cycle (fun _ => none) "alice" (init_state 3)
        { now := 50, llen := none, lrange := none,
          plyer_available := true, window_focused := false }).1).last_count = 3 :=
  (C6_llen_failure (fun _ => none) "alice" (init_state 3)
    { now := 50, llen := none, lrange := none,
      plyer_available := true, window_focused := false } [] rfl).1

/-- **C7, counterexample.** The sleep after a failed cycle (the `except`
branch) is 2, the same as the sleep ending a successful cycle — not
strictly longer, refuting the claimed backoff. -/
theorem C7_counterexample :
    stream_error_sleep = 2 ∧ message_poll_sleep = 2 ∧
    ¬ message_poll_sleep < stream_error_sleep := by
  decide

/-- **C7, amended.** After a cycle that ends in an internal failure the
loop sleeps exactly the same fixed 2 time-units as after a successful
cycle (no longer backoff), before retrying from the start of the cycle. -/
theorem C7_sleep_equal :
    stream_error_sleep = message_poll_sleep ∧
    ∀ (decode : String → Option Message) (username : String) (st : SyncState)
      (env : SyncEnv),
      (stream_cycle decode username st env).2.sleep = message_poll_sleep := by
  refine ⟨rfl, ?_⟩
  intro decode username st env
  obtain ⟨now, llen, lrange, pa, wf⟩ := env
  cases llen with
  | none => rfl
  | some c =>
    simp only [stream_cycle]
    by_cases hlt : st.last_count < c
    · rw [if_pos hlt]
    · rw [if_neg hlt]

/-- **C10.** A notification can only be emitted when `plyer` is available
and the terminal window is not focused; when the window is focused or
`plyer` is absent, no notification fires in that cycle, while the batch
handed to display (and the rendered subset) is exactly the same as it
would be with notifications enabled. -/
theorem C10_notification_gate (decode : String → Option Message) (username : String)
    (st : SyncState) (env : SyncEnv) :
    ((stream_cycle decode username st env).2.notif ≠ none →
        env.plyer_available = true ∧ env.window_focused = false) ∧
    ((env.plyer_available = false ∨ env.window_focused = true) →
        (stream_cycle decode username st env).2.notif = none) ∧
    ((stream_cycle decode username st
        { env with plyer_available := false, window_focused := true }).2.rendered =
      (stream_cycle decode username st env).2.rendered) ∧
    ((stream_cycle decode username st
        { env with plyer_available := false, window_focused := true }).2.dispatched =
      (stream_cycle decode username st env).2.dispatched) := by
  obtain ⟨now, llen, lrange, pa, wf⟩ := env
  cases llen with
  | none => exact ⟨fun h => absurd rfl h, fun _ => rfl, rfl, rfl⟩
  | some c =>
    simp only [stream_cycle]
    by_cases hlt : st.last_count < c
    · simp only [if_pos hlt]
      refine ⟨?_, ?_, by trivial, by trivial⟩
      · intro h
        simp only [cycle_notif] at h
        by_cases hcond :
            (!(get_message_history decode lrange).isEmpty && pa && !wf) = true
        · have h1 := hcond
          rw [Bool.and_eq_true, Bool.and_eq_true] at h1
          refine ⟨h1.1.2, ?_⟩
          cases wf with
          | false => rfl
          | true => simp at h1
        · rw [if_neg hcond] at h
          exact absurd rfl h
      · intro hor
        simp only [cycle_notif]
        cases hor with
        | inl hpa => simp [hpa]
        | inr hwf => simp [hwf]
    · simp only [if_neg hlt]
      refine ⟨?_, ?_, ?_, ?_⟩ <;>
        first
          | exact fun h => absurd rfl h
          | exact fun _ => rfl
          | exact fun _ => trivial
          | trivial

/-- Decoder for the C10 witness cycle. -/
def c10_decode (s : String) : Option Message :=
  if s == "m1" then
    some { username := "dan", message := "yo", timestamp := "t",
           recipients := [], is_silent := false }
  else none

/-- Environment of the C10 witness cycle: one new decodable message with
`plyer` available and the window unfocused. -/
def c10_env : SyncEnv :=
  { now := 0, llen := some 1, lrange := some ["m1"],
    plyer_available := true, window_focused := false }

/-- Witness for C10: a cycle that actually notifies has `plyer` available
and the window unfocused. -/
theorem C10_witness :
    c10_env.plyer_available = true ∧ c10_env.window_focused = false :=
  (C10_notification_gate c10_decode "bob" (init_state 0) c10_env).1 (by decide)

/-- **C8.** `send_message` parsing: the spec's worked example
`"@B secret /silent"` yields body `"@B secret"`, silent, recipients
`["B"]`; several mentions are all captured; `/silent` with no mention
yields an empty recipients list and the message is then visible only to
its sender; text containing `/silent` always sets the silent flag; text
without `/silent` is stored unchanged, non-silent, with no recipients; and
for silent text the body is the text with `/silent` removed and stripped
while the recipients are exactly the `@word` mentions of the text. -/
theorem C8_send_message_parsing :
    (send_message "A" "t1" "@B secret /silent" =
      { username := "A", message := "@B secret", timestamp := "t1",
        recipients := ["B"], is_silent := true }) ∧
    (send_message "A" "t2" "/silent @B @C_2 hi" =
      { username := "A", message := "@B @C_2 hi", timestamp := "t2",
        recipients := ["B", "C_2"], is_silent := true }) ∧
    (send_message "A" "t3" "note to self /silent" =
      { username := "A", message := "note to self", timestamp := "t3",
        recipients := [], is_silent := true }) ∧
    (∀ r, isVisible (send_message "A" "t3" "note to self /silent") r = (r == "A")) ∧
    (∀ u ts text, (send_message u ts text).is_silent = strContains "/silent" text) ∧
    (∀ u ts text, strContains "/silent" text = false →
      send_message u ts text =
        { username := u, message := text, timestamp := ts,
          recipients := [], is_silent := false }) ∧
    (∀ u ts text, strContains "/silent" text = true →
      (send_message u ts text).message
          = String.mk (stripStr (removeSilent text.toList)) ∧
      (send_message u ts text).recipients = findMentions text) := by
  refine ⟨by decide, by decide, by decide, ?_, ?_, ?_, ?_⟩
  · intro r
    have he : send_message "A" "t3" "note to self /silent" =
        { username := "A", message := "note to self", timestamp := "t3",
          recipients := [], is_silent := true } := by decide
    rw [he]
    simp only [isVisible]
    cases r == "A" <;> rfl
  · intro u ts text
    rfl
  · intro u ts text h
    simp [send_message, h]
  · intro u ts text h
    simp [send_message, h]

/-- Witness for C8: plain text without `/silent` is stored unchanged,
non-silent, with no recipients. -/
theorem C8_witness :
    send_message "A" "t0" "hello" =
      { username := "A", message := "hello", timestamp := "t0",
        recipients := [], is_silent := false } :=
  C8_send_message_parsing.2.2.2.2.2.1 "A" "t0" "hello" (by decide)

/-- **C9.** In `get_message_history`, an entry whose decoding fails is
skipped silently and every remaining decodable entry of the batch is still
returned, in order: splitting the reply around a malformed entry gives the
concatenation of the two sides' decodings; a failed request decodes to the
empty batch. -/
theorem C9_decode_skip (decode : String → Option Message) (xs ys : List String)
    (bad : String) (h : decode bad = none) :
    get_message_history decode (some (xs ++ bad :: ys)) =
      get_message_history decode (some xs) ++ get_message_history decode (some ys) ∧
    get_message_history decode none = [] := by
  constructor
  · simp [get_message_history, List.filterMap_append, List.filterMap_cons, h]
  · rfl

/-- Decoder for the C9 witness: only the entry `"ok"` decodes. -/
def c9_decode (s : String) : Option Message :=
  if s == "ok" then
    some { username := "dan", message := "hi", timestamp := "t",
           recipients := [], is_silent := false }
  else none

/-- Witness for C9: a batch with a malformed entry in the middle decodes
to the decodings of the two decodable neighbours. -/
theorem C9_witness :
    get_message_history c9_decode (some (["ok"] ++ "bad" :: ["ok"])) =
      get_message_history c9_decode (some ["ok"]) ++
        get_message_history c9_decode (some ["ok"]) :=
  (C9_decode_skip c9_decode ["ok"] ["ok"] "bad" (by decide)).1

end RedisChat
